import Mathlib

/-!
Shallow embedding of `src/research_agent.py` (studychain01/Research_Agent).

The module defines three agent configurations (research, editor, triage), a
fact-saving tool backed by Streamlit session state, two pydantic data models
(`ResearchPlan`, `ResearchReport`), and top-level Streamlit UI statements.
Pure data is embedded as Lean structures; the Streamlit session-state dict is
an association list; module-level side effects are an explicit effect trace;
pydantic validation of structured model output is an explicit validator over a
JSON-like value type.
-/

namespace ResearchAgent

/-- Association-list lookup keyed by strings; models reading a key of a Python
dict such as `st.session_state` or a JSON object's fields. First binding wins. -/
def alookup {β : Type} (k : String) : List (String × β) → Option β
  | [] => none
  | (k', v) :: rest => if k' = k then some v else alookup k rest

/-- Association-list update keyed by strings; models assigning a key of a
Python dict: replace the first binding in place, or append a new binding. -/
def aset {β : Type} (k : String) (v : β) : List (String × β) → List (String × β)
  | [] => [(k, v)]
  | (k', v') :: rest => if k' = k then (k, v) :: rest else (k', v') :: aset k v rest

/-- The `ResearchPlan` pydantic model (lines 61-64 of the source): three typed
fields, no length or emptiness constraints declared. -/
structure ResearchPlan where
  topic : String
  search_queries : List String
  focus_areas : List String
deriving DecidableEq

/-- The `ResearchReport` pydantic model (lines 66-71 of the source): five typed
fields; `word_count` is an integer field with no declared relation to `report`. -/
structure ResearchReport where
  title : String
  outline : List String
  report : String
  sources : List String
  word_count : Int
deriving DecidableEq

/-- JSON-like values, the raw structured output a language model returns before
pydantic validation. -/
inductive JVal : Type
  | str (s : String)
  | int (n : Int)
  | arr (xs : List JVal)
  | obj (fields : List (String × JVal))

/-- Pydantic coercion of a JSON value to a `str` field. -/
def asStr : JVal → Option String
  | .str s => some s
  | _ => none

/-- Pydantic coercion of a JSON value to an `int` field. -/
def asInt : JVal → Option Int
  | .int n => some n
  | _ => none

/-- Pydantic coercion of a list of JSON values to a `list[str]` field. -/
def asStrList : List JVal → Option (List String)
  | [] => some []
  | x :: xs =>
    match asStr x, asStrList xs with
    | some s, some ss => some (s :: ss)
    | _, _ => none

/-- Pydantic coercion of a JSON value to a `list[str]` field. -/
def asStrArr : JVal → Option (List String)
  | .arr xs => asStrList xs
  | _ => none

/-- Pydantic validation against the `ResearchPlan` schema: every declared field
must be present with the declared type; nothing else is checked. -/
def validateResearchPlan (j : JVal) : Option ResearchPlan :=
  match j with
  | .obj fields =>
    match alookup "topic" fields, alookup "search_queries" fields,
          alookup "focus_areas" fields with
    | some tj, some sj, some fj =>
      match asStr tj, asStrArr sj, asStrArr fj with
      | some t, some ss, some fs => some ⟨t, ss, fs⟩
      | _, _, _ => none
    | _, _, _ => none
  | _ => none

/-- Pydantic validation against the `ResearchReport` schema: every declared
field must be present with the declared type; nothing else is checked — in
particular no relation between `word_count` and `report` is validated. -/
def validateResearchReport (j : JVal) : Option ResearchReport :=
  match j with
  | .obj fields =>
    match alookup "title" fields, alookup "outline" fields, alookup "report" fields,
          alookup "sources" fields, alookup "word_count" fields with
    | some tj, some oj, some rj, some sj, some wj =>
      match asStr tj, asStrArr oj, asStr rj, asStrArr sj, asInt wj with
      | some t, some o, some r, some s, some w => some ⟨t, o, r, s, w⟩
      | _, _, _, _, _ => none
    | _, _, _, _, _ => none
  | _ => none

/-- Python whitespace test used by `str.split()` with no argument. -/
def pyIsSpace (c : Char) : Bool :=
  c = ' ' || c = '\t' || c = '\n' || c = '\r' || c = '\x0b' || c = '\x0c'

/-- Accumulating worker for `str.split()`: `acc` holds the chars of the current
word in reverse. Runs of whitespace are skipped; no empty words are produced. -/
def splitAux : List Char → List Char → List String
  | [], [] => []
  | [], acc => [String.mk acc.reverse]
  | c :: cs, acc =>
    if pyIsSpace c then
      match acc with
      | [] => splitAux cs []
      | _ => String.mk acc.reverse :: splitAux cs []
    else
      splitAux cs (c :: acc)

/-- Python `s.split()` with no argument: split on runs of whitespace, dropping
empty strings. -/
def pySplit (s : String) : List String := splitAux s.data []

/-- The decimal digit character for `n < 10`, as produced by `strftime`. -/
def digitChar (n : Nat) : Char := Char.ofNat (48 + n)

/-- Two-digit zero-padded rendering of `n < 100` (`strftime` field). -/
def pad2 (n : Nat) : List Char := [digitChar (n / 10), digitChar (n % 10)]

/-- `datetime.now().strftime("%H:%M:%S")` for a wall clock reading of `t`
seconds since the epoch: only the time of day `t % 86400` is rendered. -/
def fmtHMS (t : Nat) : String :=
  let d := t % 86400
  String.mk (pad2 (d / 3600) ++ ':' :: pad2 (d % 3600 / 60) ++ ':' :: pad2 (d % 60))

/-- Numeric value of a decimal digit character. -/
def digitVal (c : Char) : Nat := c.toNat - 48

/-- Seconds-of-day denoted by an `HH:MM:SS` timestamp string; the chronological
order on stored timestamp fields is the order of these values. -/
def parseHMS (s : String) : Nat :=
  match s.data with
  | [h1, h2, _, m1, m2, _, s1, s2] =>
      (digitVal h1 * 10 + digitVal h2) * 3600 +
      (digitVal m1 * 10 + digitVal m2) * 60 +
      (digitVal s1 * 10 + digitVal s2)
  | _ => 0

/-- A fact record as appended by `save_important_fact` (lines 90-94 of the
source): the dict `{"fact": .., "source": .., "timestamp": ..}`. -/
structure FactRec where
  fact : String
  source : Option String
  timestamp : String
deriving DecidableEq

/-- Values storable in `st.session_state`. The source only ever stores the
collected-facts list; the other variants stand for any other session data
(such as a plan or report kept by the surrounding app). -/
inductive SVal : Type
  | facts (fs : List FactRec)
  | plan (p : ResearchPlan)
  | report (r : ResearchReport)
  | str (s : String)
deriving DecidableEq

/-- The Streamlit `st.session_state` dict, keyed by strings. -/
abbrev SessionState : Type := List (String × SVal)

/-- The facts currently stored under the `"collected_facts"` key (empty when
the key is absent; the source never stores a non-list there). -/
def factsOf (st : SessionState) : List FactRec :=
  match alookup "collected_facts" st with
  | some (SVal.facts fs) => fs
  | _ => []

/-- `save_important_fact(fact, source=None)` (lines 75-96 of the source): if
`"collected_facts" not in st.session_state` create it as `[]`; append the dict
`{"fact": fact, "source": source, "timestamp": datetime.now().strftime("%H:%M:%S")}`;
return `f"Fact saved: {fact}"`. The wall clock reading at call time is the
explicit parameter `now` (seconds since the epoch). -/
def save_important_fact (now : Nat) (fact : String) (source : Option String)
    (st : SessionState) : SessionState × String :=
  let st1 := if (alookup "collected_facts" st).isSome then st
             else aset "collected_facts" (SVal.facts []) st
  let cur := match alookup "collected_facts" st1 with
             | some (SVal.facts fs) => fs
             | _ => []
  (aset "collected_facts" (SVal.facts (cur ++ [⟨fact, source, fmtHMS now⟩])) st1,
   "Fact saved: " ++ fact)

/-- One call of the fact-saving tool during a research run: the wall clock
reading at the call and the arguments passed. -/
structure SaveCall where
  time : Nat
  fact : String
  source : Option String

/-- The record a save call appends (lines 90-94 of the source). -/
def mkFactRec (c : SaveCall) : FactRec := ⟨c.fact, c.source, fmtHMS c.time⟩

/-- Replay a sequence of fact-saving tool calls against the session state. -/
def runSaves : List SaveCall → SessionState → SessionState
  | [], st => st
  | c :: cs, st => runSaves cs (save_important_fact c.time c.fact c.source st).1

/-- Session-state effect of one Research Stage invocation. Per the source, the
research agent's tools are `WebSearchTool()` (no session-state effect) and
`save_important_fact`, so a run's effect on the session is exactly the
sequence of its fact-saving tool calls; the query string touches no state. -/
def researchStage (_query : String) (toolCalls : List SaveCall)
    (st : SessionState) : SessionState :=
  runSaves toolCalls st

/-- Boolean test that a list of numbers is non-decreasing. -/
def nonDecreasing : List Nat → Bool
  | [] => true
  | [_] => true
  | a :: b :: rest => Nat.ble a b && nonDecreasing (b :: rest)

/-- An `Agent(...)` configuration from the external agents framework: the
declared constructor parameters used by this module. `tools` and `handoffs`
are kept as names of the referenced tools / target agents. -/
structure AgentConfig where
  name : String
  instructions : String
  model : String
  tools : List String
  handoffs : List String
  output_type : Option String
  handoff_description : Option String
deriving DecidableEq

/-- `handoff(agent)`: a hand-off object targeting the given agent, kept as the
target's name. -/
def handoff (a : AgentConfig) : String := a.name

/-- `research_agent` (lines 99-112 of the source). -/
def research_agent : AgentConfig :=
  { name := "Research Agent"
    instructions :=
      "You are a research assistant. Given a search term, you search the web for that term and" ++
      "produce a concise summary of the results. The summary must be 2-3 paragraphs and less than 300" ++
      "words. Capture the main points. Write succintly, no need to have complete sentences or good" ++
      "grammar. This will be consumed by someone synthesizing a report, so its vital you capture the" ++
      "essence and ignore any fluff. Do not include any additional commentary other than the summary" ++
      "itself."
    model := "gpt-4o-mini"
    tools := ["WebSearchTool", "save_important_fact"]
    handoffs := []
    output_type := none
    handoff_description := none }

/-- `editor_agent` (lines 114-127 of the source). -/
def editor_agent : AgentConfig :=
  { name := "Editor Agent"
    instructions :=
      "You are a senior researcher tasked with writing a cohesive report for a research query. " ++
      "You will be provided with the original query, and some initial research done by a research " ++
      "assistant.\n" ++
      "You should first come up with an outline for the report that describes the structure and " ++
      "flow of the report. Then, generate the report and return that as your final output.\n" ++
      "The final output should be in markdown format, and it should be lengthy and detailed. Aim" ++
      "for 5-10 pages of content, at least 1000 words."
    model := "gpt-4o-mini"
    tools := []
    handoffs := []
    output_type := some "ResearchReport"
    handoff_description := some "A senior researcher who writes comprehensive research reports." }

/-- The list-valued keyword arguments of the `triage_agent` constructor call
(lines 142-145 of the source), transcribed verbatim: the hand-off list is
passed under the keyword `handofs`, not `handoffs`. -/
def triage_handoff_kwargs : List (String × List String) :=
  [("handofs", [handoff research_agent, handoff editor_agent])]

/-- Keyword binding of the framework constructor's declared `handoffs`
parameter: the value passed under the keyword `handoffs`, defaulting to the
empty list when that keyword is absent from the call. -/
def bindHandoffs (kwargs : List (String × List String)) : List String :=
  (alookup "handoffs" kwargs).getD []

/-- `triage_agent` (lines 129-148 of the source); its `handoffs` configuration
is whatever the call's keyword arguments bind to the `handoffs` parameter. -/
def triage_agent : AgentConfig :=
  { name := "Triage Agent"
    instructions :=
      "You are the coordinator of this research operation. Your job is to:\n" ++
      "    1. Understand the user\x27s research topic\n" ++
      "    2. Create a research plan with the following elements:\n" ++
      "       - topic: A clear statement of the research topic\n" ++
      "       - search_queries: A list of 3-5 specific search queries that will help gather information\n" ++
      "       - focus_areas: A list of 3-5 key aspects of the topic to investigate\n" ++
      "    3. Hand off to the Research Agent to collect information\n" ++
      "    4. After research is complete, hand off to the Editor Agent who will write a comprehensive report\n" ++
      "    \n" ++
      "    Make sure to return your plan in the expected structured format with topic, search_queries, and focus_areas.\n" ++
      "    "
    model := "gpt-4o-mini"
    tools := []
    handoffs := bindHandoffs triage_handoff_kwargs
    output_type := some "ResearchPlan"
    handoff_description := none }

/-- The agents this module defines, by name. -/
def agentByName (n : String) : Option AgentConfig :=
  if n = research_agent.name then some research_agent
  else if n = editor_agent.name then some editor_agent
  else if n = triage_agent.name then some triage_agent
  else none

/-- Hand-off targets registered for the named agent. -/
def handoffTargets (n : String) : List String :=
  ((agentByName n).map AgentConfig.handoffs).getD []

/-- The workflow may transfer control from agent `a` to agent `b` only when a
hand-off to `b` is registered on `a`. -/
def handoffStep (a b : String) : Prop := b ∈ handoffTargets a

instance (a b : String) : Decidable (handoffStep a b) := by
  unfold handoffStep; infer_instance

/-- A workflow run of this module: the sequence of agents that receive
control, starting at the triage agent, each transfer following a registered
hand-off. -/
def ValidRun (run : List String) : Prop :=
  run.head? = some triage_agent.name ∧ List.Chain' handoffStep run

/-- Side effects observable at module load, in program order. -/
inductive Effect : Type
  | load_dotenv
  | set_page_config (page_title : String) (page_icon : String)
      (layout : String) (initial_sidebar_state : String)
  | error (msg : String)
  | stop
  | title (s : String)
  | subheader (s : String)
  | markdown (s : String)
  | defineAgent (name : String)
  | networkCall (desc : String)
deriving DecidableEq

/-- The module's top-level effect trace (lines 38-148 of the source), as a
function of whether `OPENAI_API_KEY` is present in the environment:
`load_dotenv()`, `st.set_page_config(...)`, then either the error message and
`st.stop()` (key absent) or the page content and the three agent definitions
(key present). No top-level statement performs a network call. -/
def moduleTrace (hasKey : Bool) : List Effect :=
  [Effect.load_dotenv,
   Effect.set_page_config "OpenAI Researcher Agent" "📰" "wide" "expanded"] ++
  if hasKey then
    [Effect.title "📰 OpenAI Researcher Agent",
     Effect.subheader "Powered by OpenAI Agents SDK",
     Effect.markdown ("\nThis app demonstrates the power of OpenAI\x27s Agents SDK by creating a multi-agent system \nthat researches news topics and generates comprehensive research reports.\n"),
     Effect.defineAgent "Research Agent",
     Effect.defineAgent "Editor Agent",
     Effect.defineAgent "Triage Agent"]
  else
    [Effect.error "Please set your OPENAI_API_KEY environment variable",
     Effect.stop]

/-- Effects that render page content (UI elements displayed to the user). -/
def isUIRender : Effect → Bool
  | .title _ => true
  | .subheader _ => true
  | .markdown _ => true
  | _ => false

/-- Effects that perform a network call. -/
def isNetworkCall : Effect → Bool
  | .networkCall _ => true
  | _ => false

/-- Modelled from the spec: the Presentation Shell's topic-submission handler
is not present under `src/` (the module ends after the agent definitions);
per spec section 4.6 it "must reject submission when the topic is empty": an
empty topic starts no stage and leaves the session unchanged, a non-empty
topic starts the workflow at the triage agent. Returns the resulting session
state and the names of the stages started. -/
def submitTopic (topic : String) (st : SessionState) : SessionState × List String :=
  if topic = "" then (st, []) else (st, [triage_agent.name])

/-- Outputs the Triage Stage can produce for a topic: structured output of the
triage agent is constrained exactly to its `output_type` schema
(`ResearchPlan`), so the possible plans are the schema-valid values. -/
def TriageMayProduce (topic : String) (p : ResearchPlan) : Prop :=
  ∃ j, validateResearchPlan j = some p ∧ p.topic = topic

/-- Outputs the Editor Stage can produce: structured output of the editor
agent is constrained exactly to its `output_type` schema (`ResearchReport`),
so the possible reports are the schema-valid values. -/
def EditorMayProduce (r : ResearchReport) : Prop :=
  ∃ j, validateResearchReport j = some r

/-- JSON array of strings. -/
def mkStrArr (ss : List String) : JVal := JVal.arr (ss.map JVal.str)

/-- A schema-valid plan with a single search query. -/
def planBad : ResearchPlan := ⟨"AI safety", ["q1"], ["a1", "a2", "a3"]⟩

/-- Structured model output validating to `planBad`. -/
def planBadJson : JVal :=
  JVal.obj [("topic", JVal.str "AI safety"),
            ("search_queries", JVal.arr [JVal.str "q1"]),
            ("focus_areas", JVal.arr [JVal.str "a1", JVal.str "a2", JVal.str "a3"])]

/-- A schema-valid report whose `word_count` does not match its text. -/
def reportBad : ResearchReport :=
  ⟨"AI", ["Intro"], "Short report.", ["example.com"], 1500⟩

/-- Structured model output validating to `reportBad`. -/
def reportBadJson : JVal :=
  JVal.obj [("title", JVal.str "AI"),
            ("outline", JVal.arr [JVal.str "Intro"]),
            ("report", JVal.str "Short report."),
            ("sources", JVal.arr [JVal.str "example.com"]),
            ("word_count", JVal.int 1500)]

/-- Two appends whose wall-clock instants straddle midnight: 23:59:59 of one
day, then 00:00:00 of the next. -/
def midnightSaves : List SaveCall := [⟨86399, "f1", none⟩, ⟨86400, "f2", none⟩]

/-- A plan stored in the session, for exercising the frame property. -/
def demoPlan : ResearchPlan := ⟨"AI safety", ["q1", "q2", "q3"], ["a1", "a2", "a3"]⟩

/-! ### Helper lemmas -/

theorem alookup_aset_self {β : Type} (k : String) (v : β) :
    ∀ l : List (String × β), alookup k (aset k v l) = some v
  | [] => by simp [aset, alookup]
  | (k', v') :: rest => by
    by_cases h : k' = k
    · simp [aset, alookup, h]
    · simp [aset, alookup, h, alookup_aset_self k v rest]

theorem alookup_aset_ne {β : Type} {k k' : String} (h : k' ≠ k) (v : β) :
    ∀ l : List (String × β), alookup k' (aset k v l) = alookup k' l
  | [] => by simp [aset, alookup, Ne.symm h]
  | (k'', v'') :: rest => by
    by_cases hk : k'' = k
    · subst hk
      simp [aset, alookup, Ne.symm h]
    · simp [aset, alookup, hk, alookup_aset_ne h v rest]

theorem alookup_save_self (t : Nat) (f : String) (src : Option String)
    (st : SessionState) :
    alookup "collected_facts" (save_important_fact t f src st).1 =
      some (SVal.facts (factsOf st ++ [⟨f, src, fmtHMS t⟩])) := by
  unfold save_important_fact factsOf
  cases h : alookup "collected_facts" st with
  | none => simp [h, alookup_aset_self]
  | some v =>
    cases v with
    | facts fs => simp [h, alookup_aset_self]
    | plan p => simp [h, alookup_aset_self]
    | report r => simp [h, alookup_aset_self]
    | str s => simp [h, alookup_aset_self]

theorem factsOf_save (t : Nat) (f : String) (src : Option String)
    (st : SessionState) :
    factsOf (save_important_fact t f src st).1 = factsOf st ++ [⟨f, src, fmtHMS t⟩] := by
  rw [factsOf, alookup_save_self]

theorem alookup_save_ne {k : String} (hk : k ≠ "collected_facts") (t : Nat)
    (f : String) (src : Option String) (st : SessionState) :
    alookup k (save_important_fact t f src st).1 = alookup k st := by
  unfold save_important_fact
  by_cases h : (alookup "collected_facts" st).isSome
  · simp [h, alookup_aset_ne hk]
  · simp [h, alookup_aset_ne hk]

theorem factsOf_runSaves : ∀ (saves : List SaveCall) (st : SessionState),
    factsOf (runSaves saves st) = factsOf st ++ saves.map mkFactRec
  | [], st => by simp [runSaves]
  | c :: cs, st => by
    simp [runSaves, factsOf_runSaves cs, factsOf_save, mkFactRec]

theorem alookup_runSaves_ne {k : String} (hk : k ≠ "collected_facts") :
    ∀ (saves : List SaveCall) (st : SessionState),
    alookup k (runSaves saves st) = alookup k st
  | [], _ => rfl
  | c :: cs, st => by
    rw [runSaves, alookup_runSaves_ne hk cs, alookup_save_ne hk]

theorem handoffTargets_triage : handoffTargets triage_agent.name = [] := by decide

theorem digitVal_digitChar {n : Nat} (h : n < 10) : digitVal (digitChar n) = n := by
  interval_cases n <;> decide

theorem parseHMS_fmtHMS (t : Nat) : parseHMS (fmtHMS t) = t % 86400 := by
  have h1 : t % 86400 / 3600 / 10 < 10 := by omega
  have h2 : t % 86400 / 3600 % 10 < 10 := by omega
  have h3 : t % 86400 % 3600 / 60 / 10 < 10 := by omega
  have h4 : t % 86400 % 3600 / 60 % 10 < 10 := by omega
  have h5 : t % 86400 % 60 / 10 < 10 := by omega
  have h6 : t % 86400 % 60 % 10 < 10 := by omega
  simp only [fmtHMS, pad2, List.cons_append, List.nil_append, parseHMS]
  rw [digitVal_digitChar h1, digitVal_digitChar h2, digitVal_digitChar h3,
      digitVal_digitChar h4, digitVal_digitChar h5, digitVal_digitChar h6]
  omega

theorem nonDecreasing_mod (d : Nat) : ∀ ts : List Nat, List.Chain' (· ≤ ·) ts →
    (∀ x ∈ ts, x / 86400 = d) → nonDecreasing (ts.map (· % 86400)) = true
  | [], _, _ => rfl
  | [_], _, _ => rfl
  | a :: b :: rest, hc, hd => by
    rw [List.chain'_cons] at hc
    have ha : a / 86400 = d := hd a (by simp)
    have hb : b / 86400 = d := hd b (by simp)
    have ih := nonDecreasing_mod d (b :: rest) hc.2
      (fun x hx => hd x (List.mem_cons_of_mem a hx))
    simp only [List.map_cons] at ih ⊢
    rw [nonDecreasing, ih, Bool.and_true, Nat.ble_eq]
    have hab : a ≤ b := hc.1
    omega

theorem asStrList_map_str : ∀ ss : List String, asStrList (ss.map JVal.str) = some ss
  | [] => rfl
  | s :: ss => by simp [asStrList, asStr, asStrList_map_str ss]

theorem validate_mkPlanJson (topic : String) (qs fs : List String) :
    validateResearchPlan (JVal.obj
      [("topic", JVal.str topic),
       ("search_queries", mkStrArr qs),
       ("focus_areas", mkStrArr fs)]) = some ⟨topic, qs, fs⟩ := by
  simp [validateResearchPlan, alookup, asStr, asStrArr, mkStrArr, asStrList_map_str]

theorem validate_mkReportJson (title : String) (outline : List String)
    (body : String) (sources : List String) (wc : Int) :
    validateResearchReport (JVal.obj
      [("title", JVal.str title),
       ("outline", mkStrArr outline),
       ("report", JVal.str body),
       ("sources", mkStrArr sources),
       ("word_count", JVal.int wc)]) = some ⟨title, outline, body, sources, wc⟩ := by
  simp [validateResearchReport, alookup, asStr, asStrArr, asInt, mkStrArr,
        asStrList_map_str]

/-! ### Claim theorems -/

/-- Claim C1 (code bug witness at the code level): the claim says the Editor
Stage is invoked exactly once, after all Research Stage invocations, per the
configured hand-off policy of the triage agent. In the code the hand-off list
is passed under the misspelled keyword `handofs`, so the triage agent's
hand-off configuration is empty: in every workflow run that follows the
registered hand-off configuration, the Editor Agent is invoked zero times
(not once), and so is the Research Agent. -/
theorem editor_stage_never_invoked (run : List String) (h : ValidRun run) :
    run.count editor_agent.name = 0 ∧ run.count research_agent.name = 0 := by
  obtain ⟨hh, hc⟩ := h
  cases run with
  | nil => simp at hh
  | cons a tail =>
    have ha : a = triage_agent.name := by simpa using hh
    subst ha
    cases tail with
    | nil => decide
    | cons b rest =>
      rw [List.chain'_cons] at hc
      have hb : handoffStep triage_agent.name b := hc.1
      unfold handoffStep at hb
      rw [handoffTargets_triage] at hb
      exact absurd hb (List.not_mem_nil b)

/-- Witness for C1: the run consisting of the triage agent alone is a valid
run, and it invokes neither the Editor Agent nor the Research Agent. -/
theorem editor_stage_never_invoked_witness :
    [triage_agent.name].count editor_agent.name = 0 ∧
    [triage_agent.name].count research_agent.name = 0 :=
  editor_stage_never_invoked [triage_agent.name] ⟨rfl, List.chain'_singleton _⟩

/-- Claim C2: the triage agent constructor call passes its hand-off list under
the keyword `handofs`, not `handoffs`, so nothing binds the declared
`handoffs` parameter: after module initialization the triage agent has no
hand-off targets registered and no routing to the Research Agent or the
Editor Agent is configured. -/
theorem triage_agent_has_no_handoffs_registered :
    alookup "handoffs" triage_handoff_kwargs = none ∧
    alookup "handofs" triage_handoff_kwargs =
      some [handoff research_agent, handoff editor_agent] ∧
    triage_agent.handoffs = [] ∧
    handoffTargets triage_agent.name = [] := by
  refine ⟨by decide, by decide, by decide, by decide⟩

/-- Claim C3 counterexample: for the non-empty topic "AI safety" the triage
stage's output schema admits a plan with a single search query, so the claim
that every produced plan has between 3 and 5 search queries fails. -/
theorem plan_schema_admits_one_query :
    TriageMayProduce "AI safety" planBad ∧
    planBad.search_queries.length = 1 ∧
    ("AI safety" == "") = false :=
  ⟨⟨planBadJson, by decide, rfl⟩, rfl, rfl⟩

/-- Claim C3 amended: the code constrains a produced plan only to the
`ResearchPlan` schema (topic a string, search_queries and focus_areas lists
of strings); the 3-5 length bounds appear only in the triage agent's
instruction text and are not enforced — for every non-empty topic and any
lengths n and m the schema admits a plan with n search queries and m focus
areas. -/
theorem plan_schema_does_not_bound_lengths (topic : String) (_htopic : topic ≠ "")
    (n m : Nat) :
    ∃ p : ResearchPlan, TriageMayProduce topic p ∧
      p.search_queries.length = n ∧ p.focus_areas.length = m :=
  ⟨⟨topic, List.replicate n "q", List.replicate m "a"⟩,
    ⟨JVal.obj [("topic", JVal.str topic),
               ("search_queries", mkStrArr (List.replicate n "q")),
               ("focus_areas", mkStrArr (List.replicate m "a"))],
     validate_mkPlanJson topic (List.replicate n "q") (List.replicate m "a"), rfl⟩,
    by simp, by simp⟩

/-- Witness for the amended C3: at the topic "AI safety" the schema admits a
plan with 1 search query and 7 focus areas. -/
theorem plan_schema_does_not_bound_lengths_witness :
    ∃ p : ResearchPlan, TriageMayProduce "AI safety" p ∧
      p.search_queries.length = 1 ∧ p.focus_areas.length = 7 :=
  plan_schema_does_not_bound_lengths "AI safety" (by decide) 1 7

/-- Claim C4 counterexample: the editor stage's output schema admits a report
whose `word_count` (1500) is not the number of whitespace-separated words of
its `report` field (2), so the claimed invariant
`word_count == len(report.split())` is not enforced by the code. -/
theorem report_word_count_mismatch_admitted :
    EditorMayProduce reportBad ∧
    (pySplit reportBad.report).length = 2 ∧
    reportBad.word_count = 1500 ∧
    (reportBad.word_count == ((pySplit reportBad.report).length : Int)) = false :=
  ⟨⟨reportBadJson, by decide⟩, by decide, rfl, by decide⟩

/-- Claim C4 amended: the code guarantees only that `word_count` is an integer
field of the `ResearchReport` schema; it is not tied to the report text — for
every report text and every integer the schema admits a report with that text
and that word count. -/
theorem report_word_count_unconstrained (body : String) (k : Int) :
    ∃ r : ResearchReport, EditorMayProduce r ∧ r.report = body ∧ r.word_count = k :=
  ⟨⟨"t", [], body, [], k⟩,
   ⟨JVal.obj [("title", JVal.str "t"),
              ("outline", mkStrArr []),
              ("report", JVal.str body),
              ("sources", mkStrArr []),
              ("word_count", JVal.int k)],
    validate_mkReportJson "t" [] body [] k⟩, rfl, rfl⟩

/-- Claim C5: for every fact and optional source, `save_important_fact`
appends exactly one record `{fact, source, timestamp = strftime("%H:%M:%S")}`
to the end of the session's `collected_facts` list (created lazily when
absent), leaves the previously stored records unchanged, and returns
`"Fact saved: "` followed by the fact. -/
theorem save_important_fact_appends (t : Nat) (f : String) (src : Option String)
    (st : SessionState) :
    (save_important_fact t f src st).2 = "Fact saved: " ++ f ∧
    alookup "collected_facts" (save_important_fact t f src st).1 =
      some (SVal.facts (factsOf st ++ [⟨f, src, fmtHMS t⟩])) :=
  ⟨rfl, alookup_save_self t f src st⟩

/-- Claim C6 counterexample: with non-decreasing wall-clock append instants
86399 (23:59:59) and 86400 (00:00:00 of the next day) the stored timestamp
fields of the fact store decrease, because only the time of day is stored:
the sequence of timestamp fields is not non-decreasing for every session. -/
theorem timestamps_decrease_across_midnight :
    nonDecreasing (midnightSaves.map (fun c => c.time)) = true ∧
    nonDecreasing ((factsOf (runSaves midnightSaves [])).map
      (fun r => parseHMS r.timestamp)) = false ∧
    (factsOf (runSaves midnightSaves [])).map (fun r => r.timestamp) =
      ["23:59:59", "00:00:00"] :=
  ⟨by decide, by decide, by decide⟩

/-- Claim C6 amended: for a session whose appends all occur within the same
calendar day, non-decreasing wall-clock instants give non-decreasing stored
timestamp fields (in time-of-day order). -/
theorem timestamps_nonDecreasing_within_day (saves : List SaveCall) (d : Nat)
    (hmono : List.Chain' (fun a b => a.time ≤ b.time) saves)
    (hday : ∀ c ∈ saves, c.time / 86400 = d) :
    nonDecreasing ((factsOf (runSaves saves [])).map
      (fun r => parseHMS r.timestamp)) = true := by
  rw [factsOf_runSaves]
  have hts : ((saves.map mkFactRec).map fun r => parseHMS r.timestamp) =
      (saves.map (fun c => c.time)).map (· % 86400) := by
    rw [List.map_map, List.map_map]
    refine List.map_congr_left (fun c _ => ?_)
    simp [mkFactRec, parseHMS_fmtHMS]
  have hchain : List.Chain' (· ≤ ·) (saves.map (fun c => c.time)) :=
    (List.chain'_map _).mpr hmono
  have hd : ∀ x ∈ saves.map (fun c => c.time), x / 86400 = d := by
    intro x hx
    obtain ⟨c, hc, rfl⟩ := List.mem_map.mp hx
    exact hday c hc
  have hmain := nonDecreasing_mod d (saves.map (fun c => c.time)) hchain hd
  simpa [hts] using hmain

/-- Witness for the amended C6: two same-day appends at instants 30 and 40
give non-decreasing stored timestamps. -/
theorem timestamps_nonDecreasing_within_day_witness :
    nonDecreasing ((factsOf (runSaves [⟨30, "a", none⟩, ⟨40, "b", none⟩] [])).map
      (fun r => parseHMS r.timestamp)) = true :=
  timestamps_nonDecreasing_within_day [⟨30, "a", none⟩, ⟨40, "b", none⟩] 0
    (List.chain'_cons.mpr ⟨by decide, List.chain'_singleton _⟩) (by decide)

/-- Claim C7: when `OPENAI_API_KEY` is absent, the module's effect trace is
exactly `load_dotenv`, the page configuration, the visible configuration
error message, and `st.stop()`: the script halts, no page content is
rendered, and no network call is made. -/
theorem missing_api_key_halts :
    moduleTrace false =
      [Effect.load_dotenv,
       Effect.set_page_config "OpenAI Researcher Agent" "📰" "wide" "expanded",
       Effect.error "Please set your OPENAI_API_KEY environment variable",
       Effect.stop] ∧
    (moduleTrace false).filter isUIRender = [] ∧
    (moduleTrace false).filter isNetworkCall = [] ∧
    (moduleTrace false).getLast? = some Effect.stop ∧
    Effect.error "Please set your OPENAI_API_KEY environment variable" ∈
      moduleTrace false :=
  ⟨rfl, rfl, rfl, rfl, by decide⟩

/-- Claim C8: the fact-store append has no error conditions: it is a total
function, and for every fact string — including the empty string — it
succeeds, stores the value as-is without validation, and returns the
confirmation message. -/
theorem save_accepts_any_fact (t : Nat) (f : String) (src : Option String)
    (st : SessionState) :
    factsOf (save_important_fact t f src st).1 =
      factsOf st ++ [⟨f, src, fmtHMS t⟩] ∧
    (save_important_fact t f src st).2 = "Fact saved: " ++ f ∧
    factsOf (save_important_fact t "" src st).1 =
      factsOf st ++ [⟨"", src, fmtHMS t⟩] ∧
    (save_important_fact t "" src st).2 = "Fact saved: " :=
  ⟨factsOf_save t f src st, rfl, factsOf_save t "" src st, rfl⟩

/-- Claim C9: a Research Stage invocation (for any query, hence also a
re-invocation with the same query) changes no session key other than the
collected facts — in particular a stored plan is unchanged — and two saves of
an identical fact append two independent entries, neither deduplicated nor
overwritten. -/
theorem research_no_plan_mutation_and_no_dedup (q : String)
    (calls : List SaveCall) (st : SessionState) (k : String)
    (hk : k ≠ "collected_facts") (t1 t2 : Nat) (f : String)
    (src : Option String) :
    alookup k (researchStage q calls st) = alookup k st ∧
    factsOf (save_important_fact t2 f src (save_important_fact t1 f src st).1).1 =
      factsOf st ++ [⟨f, src, fmtHMS t1⟩, ⟨f, src, fmtHMS t2⟩] :=
  ⟨alookup_runSaves_ne hk calls st, by simp [factsOf_save]⟩

/-- Witness for C9: a research run over a session holding a plan leaves the
plan binding unchanged, and two saves of "water is wet" yield two entries. -/
theorem research_no_plan_mutation_and_no_dedup_witness :
    alookup "plan" (researchStage "AI safety" [⟨5, "x", none⟩]
      [("plan", SVal.plan demoPlan)]) =
      alookup "plan" [("plan", SVal.plan demoPlan)] ∧
    factsOf (save_important_fact 4 "water is wet" none
      (save_important_fact 3 "water is wet" none []).1).1 =
      factsOf ([] : SessionState) ++
        [⟨"water is wet", none, fmtHMS 3⟩, ⟨"water is wet", none, fmtHMS 4⟩] :=
  research_no_plan_mutation_and_no_dedup "AI safety" [⟨5, "x", none⟩]
    [("plan", SVal.plan demoPlan)] "plan" (by decide) 3 4 "water is wet" none

/-- Claim C10 (modelled from the spec, section 4.6): submitting the empty
topic is rejected by the presentation shell: the session state is unchanged
and no stage is started, so no plan is created. -/
theorem empty_topic_rejected (st : SessionState) :
    submitTopic "" st = (st, []) := rfl

end ResearchAgent
